import Mathlib

/-!
Formal model of the Diffie-Hellman key-exchange and call-signaling core of the
clawdbot telegram voice services.  Byte strings are modelled as `List Nat`
(each entry one byte value), Python integers as `Nat` or `Int`.  The SHA-1 and
SHA-256 functions below embed the `hashlib` primitives the source calls; the
call-handling definitions embed the Python methods of the service modules.
-/

set_option maxRecDepth 40000

namespace SpecModel

/-! ### 32-bit word helpers for the hashlib SHA-1 / SHA-256 embeddings -/

def bit32 : Nat := 4294967296

def add32 (a b : Nat) : Nat := (a + b) % bit32

def not32 (x : Nat) : Nat := Nat.xor x (bit32 - 1)

def rotl32 (n x : Nat) : Nat := Nat.lor ((x <<< n) % bit32) (x >>> (32 - n))

def rotr32 (n x : Nat) : Nat := Nat.lor (x >>> n) ((x % 2 ^ n) <<< (32 - n))

def wordsOfBytesBE : List Nat → List Nat
  | b0 :: b1 :: b2 :: b3 :: rest =>
      (((b0 * 256 + b1) * 256 + b2) * 256 + b3) :: wordsOfBytesBE rest
  | _ => []

def bytesOfWord32BE (w : Nat) : List Nat :=
  [w / 2 ^ 24 % 256, w / 2 ^ 16 % 256, w / 2 ^ 8 % 256, w % 256]

def lengthBytes64BE (n : Nat) : List Nat :=
  [n / 2 ^ 56 % 256, n / 2 ^ 48 % 256, n / 2 ^ 40 % 256, n / 2 ^ 32 % 256,
   n / 2 ^ 24 % 256, n / 2 ^ 16 % 256, n / 2 ^ 8 % 256, n % 256]

/-- Merkle-Damgard padding shared by SHA-1 and SHA-256: append byte `128`,
then zero bytes up to 56 mod 64, then the bit length as 8 big-endian bytes. -/
def padMessage (msg : List Nat) : List Nat :=
  msg ++ 128 :: List.replicate ((119 - msg.length % 64) % 64) 0
      ++ lengthBytes64BE (msg.length * 8)

def foldBlocks (f : List Nat → List Nat → List Nat) :
    Nat → List Nat → List Nat → List Nat
  | 0, h, _ => h
  | n + 1, h, msg => foldBlocks f n (f h (msg.take 64)) (msg.drop 64)

/-! ### SHA-1 -/

def sha1F (i b c d : Nat) : Nat :=
  if i < 20 then Nat.lor (Nat.land b c) (Nat.land (not32 b) d)
  else if i < 40 then Nat.xor b (Nat.xor c d)
  else if i < 60 then Nat.lor (Nat.lor (Nat.land b c) (Nat.land b d)) (Nat.land c d)
  else Nat.xor b (Nat.xor c d)

def sha1K (i : Nat) : Nat :=
  if i < 20 then 1518500249
  else if i < 40 then 1859775393
  else if i < 60 then 2400959708
  else 3395469782

def sha1ExtendAux : Nat → List Nat → List Nat
  | 0, w => w
  | n + 1, w =>
      let i := w.length
      let x := Nat.xor (Nat.xor (w.getD (i - 3) 0) (w.getD (i - 8) 0))
               (Nat.xor (w.getD (i - 14) 0) (w.getD (i - 16) 0))
      sha1ExtendAux n (w ++ [rotl32 1 x])

def sha1Compress (h : List Nat) (block : List Nat) : List Nat :=
  let w := sha1ExtendAux 64 (wordsOfBytesBE block)
  let s := (List.range 80).foldl
    (fun s i =>
      match s with
      | (a, b, c, d, e) =>
        let t := add32 (add32 (add32 (rotl32 5 a) (sha1F i b c d))
                  (add32 e (sha1K i))) (w.getD i 0)
        (t, a, rotl32 30 b, c, d))
    (h.getD 0 0, h.getD 1 0, h.getD 2 0, h.getD 3 0, h.getD 4 0)
  match s with
  | (a, b, c, d, e) =>
      [add32 (h.getD 0 0) a, add32 (h.getD 1 0) b, add32 (h.getD 2 0) c,
       add32 (h.getD 3 0) d, add32 (h.getD 4 0) e]

def sha1InitH : List Nat :=
  [1732584193, 4023233417, 2562383102, 271733878, 3285377520]

/-- SHA-1 digest of a byte string, as the 20-byte list (`hashlib.sha1(...).digest()`). -/
def sha1 (msg : List Nat) : List Nat :=
  let padded := padMessage msg
  ((foldBlocks sha1Compress (padded.length / 64) sha1InitH padded).map
    bytesOfWord32BE).flatten

/-! ### SHA-256 -/

def sha256K : List Nat :=
  [1116352408, 1899447441, 3049323471, 3921009573, 961987163, 1508970993, 2453635748, 2870763221,
   3624381080, 310598401, 607225278, 1426881987, 1925078388, 2162078206, 2614888103, 3248222580,
   3835390401, 4022224774, 264347078, 604807628, 770255983, 1249150122, 1555081692, 1996064986,
   2554220882, 2821834349, 2952996808, 3210313671, 3336571891, 3584528711, 113926993, 338241895,
   666307205, 773529912, 1294757372, 1396182291, 1695183700, 1986661051, 2177026350, 2456956037,
   2730485921, 2820302411, 3259730800, 3345764771, 3516065817, 3600352804, 4094571909, 275423344,
   430227734, 506948616, 659060556, 883997877, 958139571, 1322822218, 1537002063, 1747873779,
   1955562222, 2024104815, 2227730452, 2361852424, 2428436474, 2756734187, 3204031479, 3329325298]

def ssig0 (x : Nat) : Nat := Nat.xor (rotr32 7 x) (Nat.xor (rotr32 18 x) (x >>> 3))

def ssig1 (x : Nat) : Nat := Nat.xor (rotr32 17 x) (Nat.xor (rotr32 19 x) (x >>> 10))

def bsig0 (x : Nat) : Nat := Nat.xor (rotr32 2 x) (Nat.xor (rotr32 13 x) (rotr32 22 x))

def bsig1 (x : Nat) : Nat := Nat.xor (rotr32 6 x) (Nat.xor (rotr32 11 x) (rotr32 25 x))

def sha256ExtendAux : Nat → List Nat → List Nat
  | 0, w => w
  | n + 1, w =>
      let i := w.length
      let x := add32 (add32 (w.getD (i - 16) 0) (ssig0 (w.getD (i - 15) 0)))
               (add32 (w.getD (i - 7) 0) (ssig1 (w.getD (i - 2) 0)))
      sha256ExtendAux n (w ++ [x])

def sha256Compress (h : List Nat) (block : List Nat) : List Nat :=
  let w := sha256ExtendAux 48 (wordsOfBytesBE block)
  let s := (List.range 64).foldl
    (fun s i =>
      match s with
      | (a, b, c, d, e, f, g, hh) =>
        let t1 := add32 (add32 (add32 hh (bsig1 e))
                   (add32 (Nat.xor (Nat.land e f) (Nat.land (not32 e) g))
                    (sha256K.getD i 0))) (w.getD i 0)
        let t2 := add32 (bsig0 a)
                   (Nat.xor (Nat.xor (Nat.land a b) (Nat.land a c)) (Nat.land b c))
        (add32 t1 t2, a, b, c, add32 d t1, e, f, g))
    (h.getD 0 0, h.getD 1 0, h.getD 2 0, h.getD 3 0,
     h.getD 4 0, h.getD 5 0, h.getD 6 0, h.getD 7 0)
  match s with
  | (a, b, c, d, e, f, g, hh) =>
      [add32 (h.getD 0 0) a, add32 (h.getD 1 0) b, add32 (h.getD 2 0) c,
       add32 (h.getD 3 0) d, add32 (h.getD 4 0) e, add32 (h.getD 5 0) f,
       add32 (h.getD 6 0) g, add32 (h.getD 7 0) hh]

def sha256InitH : List Nat :=
  [1779033703, 3144134277, 1013904242, 2773480762,
   1359893119, 2600822924, 528734635, 1541459225]

/-- SHA-256 digest of a byte string, as the 32-byte list (`hashlib.sha256(...).digest()`). -/
def sha256 (msg : List Nat) : List Nat :=
  let padded := padMessage msg
  ((foldBlocks sha256Compress (padded.length / 64) sha256InitH padded).map
    bytesOfWord32BE).flatten

/-- Sanity check of the SHA-1 embedding against the standard test vector for `"abc"`. -/
theorem sha1_abc :
    sha1 [97, 98, 99] =
      [169, 153, 62, 54, 71, 6, 129, 106, 186, 62, 37, 113,
       120, 80, 194, 108, 156, 208, 216, 157] := by decide

/-- Sanity check of the SHA-256 embedding against the standard test vector for `"abc"`. -/
theorem sha256_abc :
    sha256 [97, 98, 99] =
      [186, 120, 22, 191, 143, 1, 207, 234, 65, 65, 64, 222, 93, 174, 34, 35,
       176, 3, 97, 163, 150, 23, 122, 156, 180, 16, 255, 97, 242, 0, 21, 173] := by
  decide

/-! ### Integer and byte helpers shared by the service modules -/

def bitLenAux : Nat → Nat → Nat
  | 0, _ => 0
  | fuel + 1, n => if n = 0 then 0 else bitLenAux fuel (n / 2) + 1

/-- Python `value.bit_length()` for a non-negative integer. -/
def bitLen (n : Nat) : Nat := bitLenAux n n

def natToBytesBEAux : Nat → Nat → List Nat
  | 0, _ => []
  | len + 1, v => natToBytesBEAux len (v / 256) ++ [v % 256]

/-- Embeds `i2b(value)`, defined identically in telegram-voice-service.py,
telegram-call-cli.py and telegram-text-bridge.py:
`int.to_bytes(value, (value.bit_length() + 8 - 1) // 8, 'big')` —
the minimal big-endian byte encoding of a non-negative integer. -/
def i2b (value : Nat) : List Nat := natToBytesBEAux ((bitLen value + 7) / 8) value

/-- Embeds `b2i(value)`: `int.from_bytes(value, 'big')`. -/
def b2i (value : List Nat) : Nat := value.foldl (fun acc x => acc * 256 + x) 0

def leBytesToNat : List Nat → Nat
  | [] => 0
  | b :: rest => b + 256 * leBytesToNat rest

/-- Python `int.from_bytes(b, 'little', signed=True)`. -/
def leSignedOfBytes (b : List Nat) : Int :=
  let v := leBytesToNat b
  if v < 2 ^ (8 * b.length - 1) then (v : Int)
  else (v : Int) - ((2 ^ (8 * b.length) : Nat) : Int)

/-- Python slice `l[-n:]` (for `n ≤ l.length`). -/
def lastSlice {α : Type} (n : Nat) (l : List α) : List α := l.drop (l.length - n)

/-- Embeds the module constant `twoe1984 = 1 << 1984`. -/
def twoe1984 : Int := Int.ofNat (1 <<< 1984)

/-- Python exceptions relevant to the key-exchange code paths. -/
inductive PyError
  /-- python `ValueError('g_x is invalid (1 < g_x < p - 1 is false)')` -/
  | valueErrorOuterRange
  /-- python `ValueError('g_x is invalid (2^1984 < g_x < p - 2^1984 is false)')` -/
  | valueErrorInnerRange
  /-- python `RuntimeError` — caught by the `Call.check_g` wrapper, but never
  raised by the module-level `check_g` -/
  | runtimeError
  deriving DecidableEq

/-- True exactly for the `ValueError` variants. -/
def PyError.isValueError : PyError → Bool
  | .valueErrorOuterRange => true
  | .valueErrorInnerRange => true
  | .runtimeError => false

deriving instance DecidableEq for Except

/-- Embeds the module-level `check_g(g_x, p)` of telegram-voice-service.py
(the same definition appears in telegram-text-bridge.py and
telegram-call-cli.py): raises `ValueError` unless `1 < g_x < p - 1` and
`2^1984 < g_x < p - 2^1984`. -/
def check_g (g_x p : Int) : Except PyError Unit :=
  if ¬(1 < g_x ∧ g_x < p - 1) then .error .valueErrorOuterRange
  else if ¬(twoe1984 < g_x ∧ g_x < p - twoe1984) then .error .valueErrorInnerRange
  else .ok ()

/-! ### The two fingerprint variants found across the modules -/

namespace VoiceService

/-- Embeds `calc_fingerprint(key)` of telegram-voice-service.py (the identical
definition also appears in telegram-text-bridge.py): the last 8 bytes of the
SHA-1 digest of the key, interpreted as a little-endian signed 64-bit
integer. -/
def calc_fingerprint (key : List Nat) : Int :=
  leSignedOfBytes (lastSlice 8 (sha1 key))

end VoiceService

namespace CallCli

/-- Embeds `calc_fingerprint(key)` of telegram-call-cli.py: bytes `key[12:20]`
of the key itself, interpreted as a little-endian signed integer. -/
def calc_fingerprint (key : List Nat) : Int :=
  leSignedOfBytes ((key.drop 12).take 8)

end CallCli

/-! ### Call state machine of telegram-voice-service.py -/

namespace VoiceService

/-- The state strings assigned through `update_state` in
telegram-voice-service.py. -/
inductive CallState
  | IDLE
  | REQUESTING
  | WAITING
  | WAITING_INCOMING
  | EXCHANGING_KEYS
  | ESTABLISHED
  | ENDED
  | FAILED
  | BUSY
  deriving DecidableEq

/-- Result of running one Python method: either it returned normally with the
mutated object, or an exception escaped it (object left as mutated so far). -/
inductive StepOutcome (α : Type)
  | normal (c : α)
  | uncaught (e : PyError) (c : α)
  deriving DecidableEq

/-- The fields of an `IncomingCall` object relevant to `call_accepted`, at the
point where the peer's `PhoneCall` update arrives (after `accept()` ran:
state is `EXCHANGING_KEYS`, `b` and `dhc` are set, no key derived yet). -/
structure IncCall where
  state : CallState
  g_a_hash : List Nat
  b : Nat
  p : Nat
  g_a : Option Nat
  auth_key : Option Nat
  key_fingerprint : Option Int
  deriving DecidableEq

/-- Embeds `Call.call_failed` for an incoming call: `update_state('FAILED')`
(it also stops the handler and emits a `call.ended` event with reason
`failed`, which the record does not track). -/
def IncCall.call_failed (c : IncCall) : IncCall := { c with state := .FAILED }

/-- Embeds `Call.call_discarded` for an incoming call whose current `call`
object carries no Busy discard reason: falls through to `call_ended`,
`update_state('ENDED')`. -/
def IncCall.call_discarded (c : IncCall) : IncCall := { c with state := .ENDED }

/-- Embeds `IncomingCall.call_accepted(self)` of telegram-voice-service.py,
lines 427-449, given the peer's revealed bytes `g_a_or_b` and the
peer-supplied `key_fingerprint` from the current `call` object.  The
`Call.check_g` wrapper (lines 245-250) is inlined faithfully: it catches only
`RuntimeError` (discarding the call and re-raising), while the module-level
validator raises `ValueError`, which therefore escapes uncaught. -/
def incoming_call_accepted (c : IncCall) (g_a_or_b : List Nat)
    (peer_fingerprint : Int) : StepOutcome IncCall :=
  if g_a_or_b = [] then .normal c.call_failed
  else if c.g_a_hash ≠ sha256 g_a_or_b then .normal c.call_failed
  else
    let g_a := b2i g_a_or_b
    let c1 : IncCall := { c with g_a := some g_a }
    match check_g (g_a : Int) (c1.p : Int) with
    | .error .runtimeError => .uncaught .runtimeError c1.call_discarded
    | .error e => .uncaught e c1
    | .ok _ =>
      let ak := g_a ^ c1.b % c1.p
      let fp := calc_fingerprint (i2b ak)
      let c2 : IncCall := { c1 with auth_key := some ak, key_fingerprint := some fp }
      if fp ≠ peer_fingerprint then .normal c2.call_failed
      else .normal { c2 with state := .ESTABLISHED }

/-- The fields of an `OutgoingCall` object relevant to `call_accepted`, at the
point where the peer's `PhoneCallAccepted` update arrives (after `request()`
ran: state is `WAITING`, `a` and `g_a` are set; `p` is the modulus of the
DH config re-fetched by `get_dhc()` inside `call_accepted`). -/
structure OutCall where
  state : CallState
  a : Nat
  g_a : Nat
  p : Nat
  g_b : Option Nat
  auth_key : Option Nat
  key_fingerprint : Option Int
  deriving DecidableEq

/-- Embeds `Call.call_discarded` for an outgoing call whose current `call`
object carries no Busy discard reason. -/
def OutCall.call_discarded (c : OutCall) : OutCall := { c with state := .ENDED }

/-- Embeds `OutgoingCall.call_accepted(self)` of telegram-voice-service.py,
lines 493-501, given the peer's public-value bytes `g_b` from the
`PhoneCallAccepted` object.  As in the incoming case, the `Call.check_g`
wrapper catches only `RuntimeError`, so the validator's `ValueError` escapes
uncaught before any shared secret is derived. -/
def outgoing_call_accepted (c : OutCall) (g_b_bytes : List Nat) :
    StepOutcome OutCall :=
  let c0 : OutCall := { c with state := .EXCHANGING_KEYS }
  let g_b := b2i g_b_bytes
  let c1 : OutCall := { c0 with g_b := some g_b }
  match check_g (g_b : Int) (c1.p : Int) with
  | .error .runtimeError => .uncaught .runtimeError c1.call_discarded
  | .error e => .uncaught e c1
  | .ok _ =>
    let ak := g_b ^ c1.a % c1.p
    let fp := calc_fingerprint (i2b ak)
    let c2 : OutCall := { c1 with auth_key := some ak, key_fingerprint := some fp }
    .normal { c2 with state := .ESTABLISHED }

/-- Embeds `Call.auth_key_bytes`:
`i2b(self.auth_key) if self.auth_key is not None else b''`. -/
def auth_key_bytes (auth_key : Option Nat) : List Nat :=
  match auth_key with
  | some k => i2b k
  | none => []

end VoiceService

namespace VoiceService

/-- Result of one `CallService.hangup()` JSON-RPC invocation: whether it
returned the no-active-call error dict, whether an active call remains, and
how many `DiscardCall` RPCs and `call.ended` events the invocation
produced. -/
structure HangupResult where
  no_active_call_error : Bool
  active_after : Bool
  discard_rpcs : Nat
  ended_events : Nat
  deriving DecidableEq

/-- Embeds `CallService.hangup` of telegram-voice-service.py, lines 755-763:
with no active call it returns the error dict untouched; otherwise it runs
`discard_call()` on the active call (one `DiscardCall` RPC followed by
`call_ended()`, which emits one `call.ended` event) and clears
`active_call`. -/
def CallService.hangup (active_call : Bool) : HangupResult :=
  if !active_call then
    { no_active_call_error := true, active_after := active_call,
      discard_rpcs := 0, ended_events := 0 }
  else
    { no_active_call_error := false, active_after := false,
      discard_rpcs := 1, ended_events := 1 }

end VoiceService

namespace Aiortc

/-- The `state.state` strings of aiortc-p2p-calls.py. -/
inductive PState
  | IDLE
  | REQUESTING
  | WAITING
  | ACTIVE
  | FAILED
  | ENDED
  deriving DecidableEq

/-- The fields of an `AiortcP2PCall` object read or written by `hangup`:
`call_set` models `self.call is not None` (never reset by `hangup`), `pc`
whether an `RTCPeerConnection` exists. -/
structure PCall where
  call_set : Bool
  pc : Bool
  state : PState
  deriving DecidableEq

structure HangupResult where
  no_active_call_error : Bool
  after : PCall
  discard_rpcs : Nat
  ended_events : Nat
  deriving DecidableEq

/-- Embeds `AiortcP2PCall.hangup` of aiortc-p2p-calls.py, lines 729-777: it
returns the no-active-call error dict only when `self.call` is `None`;
otherwise it closes the transport, issues one `DiscardCall` RPC, sets the
state to ENDED and emits one `call.ended` event — but it never clears
`self.call`. -/
def hangup (c : PCall) : HangupResult :=
  if !c.call_set then
    { no_active_call_error := true, after := c, discard_rpcs := 0, ended_events := 0 }
  else
    { no_active_call_error := false,
      after := { c with pc := false, state := .ENDED },
      discard_rpcs := 1, ended_events := 1 }

end Aiortc

namespace Bridge

/-- Embeds `TelegramTextBridge.is_user_allowed` of telegram-text-bridge.py,
lines 661-664: an empty allow-list admits everyone, a non-empty one admits
exactly its members. -/
def is_user_allowed (allowed_users : List Int) (user_id : Int) : Bool :=
  if allowed_users.isEmpty then true
  else allowed_users.contains user_id

/-- Events printed by `TelegramTextBridge.emit_event` on the call-request
path of `_handle_raw_update`. -/
inductive Event
  /-- the `call.rejected` event, emitted with reason `not_allowed` -/
  | callRejected (call_id : Nat) (caller_id : Int)
  /-- the `call.incoming` event -/
  | callIncoming (call_id : Nat) (caller_id : Int)
  deriving DecidableEq

/-- Telegram RPC operations that handling an update could issue. -/
inductive Rpc
  /-- `phone.DiscardCall` with reason `PhoneCallDiscardReasonBusy` -/
  | discardBusy (call_id : Nat)
  /-- `phone.DiscardCall` with any other reason -/
  | discardOther (call_id : Nat)
  deriving DecidableEq

structure HandleResult where
  active_calls : List Nat
  incoming_created : Bool
  events : List Event
  rpcs : List Rpc
  deriving DecidableEq

/-- Embeds the `PhoneCallRequested` branch of
`TelegramTextBridge._handle_raw_update` (telegram-text-bridge.py, lines
573-616): a caller failing `is_user_allowed` only gets a `call.rejected`
event and the update is dropped (`raise ContinuePropagation`); an allowed
caller gets an `IncomingCall` object constructed, registered in
`_active_calls`, and a `call.incoming` event.  No RPC is issued
synchronously on either path. -/
def handle_call_requested (allowed_users : List Int) (active_calls : List Nat)
    (call_id : Nat) (caller_id : Int) : HandleResult :=
  if !(is_user_allowed allowed_users caller_id) then
    { active_calls := active_calls, incoming_created := false,
      events := [.callRejected call_id caller_id], rpcs := [] }
  else
    { active_calls := active_calls ++ [call_id], incoming_created := true,
      events := [.callIncoming call_id caller_id], rpcs := [] }

end Bridge

/-! ### Supporting lemmas about the byte codecs -/

theorem bitLenAux_zero (fuel : Nat) : bitLenAux fuel 0 = 0 := by
  cases fuel <;> simp [bitLenAux]

theorem bitLenAux_pos (fuel n : Nat) (h : n ≤ fuel) (h0 : n ≠ 0) :
    1 ≤ bitLenAux fuel n := by
  cases fuel with
  | zero => omega
  | succ f => simp [bitLenAux, h0]

theorem lt_two_pow_bitLenAux : ∀ fuel n, n ≤ fuel → n < 2 ^ bitLenAux fuel n := by
  intro fuel
  induction fuel with
  | zero => intro n h; simp_all [bitLenAux]
  | succ f ih =>
    intro n h
    by_cases h0 : n = 0
    · subst h0; simp [bitLenAux]
    · have hv : n / 2 ≤ f := by omega
      have hlt := ih (n / 2) hv
      simp only [bitLenAux, h0, if_false]
      have h2 : (2 : Nat) ^ (bitLenAux f (n / 2) + 1) = 2 * 2 ^ bitLenAux f (n / 2) := by
        rw [pow_succ]; ring
      omega

theorem two_pow_pred_le_bitLenAux :
    ∀ fuel n, n ≤ fuel → n ≠ 0 → 2 ^ (bitLenAux fuel n - 1) ≤ n := by
  intro fuel
  induction fuel with
  | zero => intro n h h0; omega
  | succ f ih =>
    intro n h h0
    simp only [bitLenAux, h0, if_false, Nat.add_sub_cancel]
    by_cases h2 : n / 2 = 0
    · have hn : n = 1 := by omega
      subst hn
      simp [h2, bitLenAux_zero]
    · have hv : n / 2 ≤ f := by omega
      have h1 := ih (n / 2) hv h2
      have h3 : (2 : Nat) ^ bitLenAux f (n / 2) = 2 * 2 ^ (bitLenAux f (n / 2) - 1) := by
        conv_lhs =>
          rw [show bitLenAux f (n / 2) = bitLenAux f (n / 2) - 1 + 1 by
            have := bitLenAux_pos f (n / 2) hv h2; omega]
        rw [pow_succ]; ring
      omega

theorem lt_two_pow_bitLen (n : Nat) : n < 2 ^ bitLen n :=
  lt_two_pow_bitLenAux n n le_rfl

theorem bitLen_mono {k p : Nat} (h : k ≤ p) : bitLen k ≤ bitLen p := by
  by_cases h0 : k = 0
  · subst h0; simp [bitLen, bitLenAux_zero]
  · by_contra hlt
    push_neg at hlt
    have hk : 2 ^ (bitLen k - 1) ≤ k := two_pow_pred_le_bitLenAux k k le_rfl h0
    have hp := lt_two_pow_bitLen p
    have hle : bitLen p ≤ bitLen k - 1 := by omega
    have hpow := Nat.pow_le_pow_right (by norm_num : 1 ≤ 2) hle
    omega

theorem natToBytesBEAux_length : ∀ len v, (natToBytesBEAux len v).length = len := by
  intro len
  induction len with
  | zero => intro v; rfl
  | succ n ih => intro v; simp [natToBytesBEAux, ih]

theorem b2i_natToBytesBEAux : ∀ len v, b2i (natToBytesBEAux len v) = v % 256 ^ len := by
  intro len
  induction len with
  | zero => intro v; simp [natToBytesBEAux, b2i, Nat.mod_one]
  | succ n ih =>
    intro v
    show b2i (natToBytesBEAux n (v / 256) ++ [v % 256]) = v % 256 ^ (n + 1)
    have happ : b2i (natToBytesBEAux n (v / 256) ++ [v % 256])
        = b2i (natToBytesBEAux n (v / 256)) * 256 + v % 256 := by
      simp [b2i, List.foldl_append]
    rw [happ, ih]
    have hm : v % 256 ^ (n + 1) = v % 256 + 256 * (v / 256 % 256 ^ n) := by
      rw [pow_succ']
      exact Nat.mod_mul
    omega

theorem b2i_i2b (x : Nat) : b2i (i2b x) = x := by
  rw [i2b, b2i_natToBytesBEAux]
  apply Nat.mod_eq_of_lt
  have h1 : x < 2 ^ bitLen x := lt_two_pow_bitLen x
  have h2 : bitLen x ≤ 8 * ((bitLen x + 7) / 8) := by omega
  calc x < 2 ^ bitLen x := h1
    _ ≤ 2 ^ (8 * ((bitLen x + 7) / 8)) := Nat.pow_le_pow_right (by norm_num) h2
    _ = 256 ^ ((bitLen x + 7) / 8) := by rw [pow_mul]; norm_num

theorem i2b_length (x : Nat) : (i2b x).length = (bitLen x + 7) / 8 := by
  rw [i2b, natToBytesBEAux_length]

/-- The module-level `check_g` only ever raises `ValueError`; in particular the
`except RuntimeError` clause of the `Call.check_g` wrapper can never fire. -/
theorem check_g_error_isValueError (g_x p : Int) (e : PyError)
    (h : check_g g_x p = .error e) : e.isValueError = true := by
  unfold check_g at h
  split_ifs at h <;> cases h <;> rfl

/-! ### Claim theorems -/

/-- C1: the two `calc_fingerprint` definitions found across the modules — the
last 8 bytes of a SHA-1 hash of the key interpreted little-endian signed
(telegram-voice-service.py / telegram-text-bridge.py) versus bytes 12..20 of
the key itself interpreted little-endian signed (telegram-call-cli.py) — are
not equivalent: they differ on some key of at least 20 bytes. -/
theorem c1_fingerprint_defs_inequivalent :
    ∃ key : List Nat, 20 ≤ key.length ∧
      VoiceService.calc_fingerprint key ≠ CallCli.calc_fingerprint key := by
  refine ⟨List.replicate 20 0, by decide, by decide⟩

/-- C5: shared-secret symmetry — the byte-encoded secret the outgoing side
derives, `pow(g^b mod p, a, p)`, equals the one the incoming side derives,
`pow(g^a mod p, b, p)`, for every modulus, generator and pair of private
exponents. -/
theorem c5_shared_secret_symmetry (p g a b : Nat) :
    VoiceService.auth_key_bytes (some ((g ^ b % p) ^ a % p)) =
      VoiceService.auth_key_bytes (some ((g ^ a % p) ^ b % p)) := by
  have h : (g ^ b % p) ^ a % p = (g ^ a % p) ^ b % p := by
    rw [← Nat.pow_mod, ← Nat.pow_mod, ← pow_mul, ← pow_mul, mul_comm]
  rw [h]

/-- C10: the integer/byte codecs round-trip on the integer side —
`b2i (i2b x) = x` for every non-negative integer — while the byte-side
composition `i2b (b2i b)` fails on byte strings with leading zero bytes. -/
theorem c10_codec_roundtrip :
    (∀ x : Nat, b2i (i2b x) = x) ∧ i2b (b2i [0, 1]) ≠ [0, 1] :=
  ⟨b2i_i2b, by decide⟩

/-- C6 counterexample: a genuinely derived shared secret
(`pow(65536, 2, 65537) = 1`) whose stored encoding has length 1, while the
modulus 65537 encodes to 3 bytes — the claim that the stored secret is always
empty or exactly of the modulus byte length is false. -/
theorem c6_counterexample :
    65536 ^ 2 % 65537 = 1 ∧
    (VoiceService.auth_key_bytes (some (65536 ^ 2 % 65537))).length = 1 ∧
    (i2b 65537).length = 3 ∧
    (VoiceService.auth_key_bytes (some (65536 ^ 2 % 65537))).length ≠
      (i2b 65537).length := by
  decide

/-- C6 (amended): the derived shared secret is stored in the minimal
big-endian encoding, with no zero-padding: for every secret below the
modulus its encoding decodes back to the secret and is at most the modulus
byte length (strictly shorter when the top bytes are zero); an underived
secret is stored empty. -/
theorem c6_shared_secret_encoding_minimal (k p : Nat) (h : k < p) :
    (VoiceService.auth_key_bytes (some k)).length ≤ (i2b p).length ∧
    b2i (VoiceService.auth_key_bytes (some k)) = k ∧
    (VoiceService.auth_key_bytes none).length = 0 := by
  refine ⟨?_, b2i_i2b k, rfl⟩
  show (i2b k).length ≤ (i2b p).length
  rw [i2b_length, i2b_length]
  have := bitLen_mono (Nat.le_of_lt h)
  omega

/-- Witness for C6 (amended) at secret 5 and modulus 65537. -/
theorem c6_witness :
    (5 : Nat) < 65537 ∧
    ((VoiceService.auth_key_bytes (some 5)).length ≤ (i2b 65537).length ∧
      b2i (VoiceService.auth_key_bytes (some 5)) = 5 ∧
      (VoiceService.auth_key_bytes none).length = 0) :=
  ⟨by decide, c6_shared_secret_encoding_minimal 5 65537 (by decide)⟩

/-- C2: `check_g(g_x, p)` succeeds exactly when `1 < g_x < p - 1` and
`2^1984 < g_x < p - 2^1984`; every `v ≤ 1` or `v ≥ p - 1` makes it raise a
`ValueError`; and in `OutgoingCall.call_accepted` such a `v` aborts the
method before the shared secret `pow(v, a, p)` is ever computed. -/
theorem c2_check_g_validation :
    (∀ g_x p : Int, check_g g_x p = .ok () ↔
      (1 < g_x ∧ g_x < p - 1 ∧ twoe1984 < g_x ∧ g_x < p - twoe1984)) ∧
    (∀ g_x p : Int, g_x ≤ 1 ∨ p - 1 ≤ g_x →
      ∃ e, check_g g_x p = .error e ∧ e.isValueError = true) ∧
    (∀ (c : VoiceService.OutCall) (g_b_bytes : List Nat),
      c.auth_key = none →
      ((b2i g_b_bytes : Int) ≤ 1 ∨ (c.p : Int) - 1 ≤ (b2i g_b_bytes : Int)) →
      ∃ c', VoiceService.outgoing_call_accepted c g_b_bytes =
          .uncaught .valueErrorOuterRange c' ∧ c'.auth_key = none) := by
  refine ⟨?_, ?_, ?_⟩
  · intro g_x p
    constructor
    · intro hok
      unfold check_g at hok
      split_ifs at hok with h1 h2
      push_neg at h1 h2
      exact ⟨h1.1, h1.2, h2.1, h2.2⟩
    · rintro ⟨ha, hb, hc, hd⟩
      unfold check_g
      rw [if_neg (not_not_intro ⟨ha, hb⟩), if_neg (not_not_intro ⟨hc, hd⟩)]
  · intro g_x p h
    refine ⟨.valueErrorOuterRange, ?_, rfl⟩
    unfold check_g
    rw [if_pos (by intro hc; omega)]
  · intro c g_b_bytes hnone h
    have hcg : check_g ((b2i g_b_bytes : Nat) : Int) ((c.p : Nat) : Int) =
        .error .valueErrorOuterRange := by
      unfold check_g
      rw [if_pos (by intro hc; omega)]
    refine ⟨{ c with state := .EXCHANGING_KEYS, g_b := some (b2i g_b_bytes) },
      ?_, hnone⟩
    simp only [VoiceService.outgoing_call_accepted, hcg]

/-- Witness for C2 at `g_x = 1`, `p = 100` and a concrete outgoing call whose
peer sends the public value 1. -/
theorem c2_witness :
    (∃ e, check_g 1 100 = .error e ∧ e.isValueError = true) ∧
    (∃ c', VoiceService.outgoing_call_accepted
        ⟨.WAITING, 3, 4, 23, none, none, none⟩ [1] =
        .uncaught .valueErrorOuterRange c' ∧ c'.auth_key = none) :=
  ⟨c2_check_g_validation.2.1 1 100 (by decide),
   c2_check_g_validation.2.2 ⟨.WAITING, 3, 4, 23, none, none, none⟩ [1]
     rfl (by decide)⟩

/-- The concrete incoming call used to exhibit the C3 divergence: commitment
hash matching the revealed bytes `[2]`, private exponent 3, modulus 23,
currently in EXCHANGING_KEYS with no key derived. -/
def c3_call_before : VoiceService.IncCall :=
  ⟨.EXCHANGING_KEYS, sha256 [2], 3, 23, none, none, none⟩

/-- The same call after `call_accepted` ran into the failed range check: only
`g_a` was assigned; state unchanged, no FAILED transition, no secret. -/
def c3_call_after : VoiceService.IncCall :=
  ⟨.EXCHANGING_KEYS, sha256 [2], 3, 23, some 2, none, none⟩

/-- C3: on an incoming call whose revealed public value passes the commitment
check but fails range validation, the `ValueError` raised by the module-level
`check_g` escapes `IncomingCall.call_accepted` uncaught (the `Call.check_g`
wrapper catches only `RuntimeError`): the call is left in EXCHANGING_KEYS —
it is never moved to a FAILED terminal state — though the shared secret is
indeed never computed. -/
theorem c3_range_failure_exception_escapes :
    VoiceService.incoming_call_accepted c3_call_before [2] 0 =
      .uncaught .valueErrorInnerRange c3_call_after ∧
    c3_call_after.state = .EXCHANGING_KEYS ∧
    c3_call_after.state ≠ .FAILED ∧
    c3_call_after.auth_key = none ∧
    check_g 2 23 = .error .valueErrorInnerRange := by
  decide

/-- C4: in `IncomingCall.call_accepted`, a revealed public value whose
SHA-256 digest differs from the stored commitment hash `g_a_hash` moves the
call to the FAILED terminal state, and neither the shared secret nor the
fingerprint is ever computed. -/
theorem c4_commitment_mismatch_fails (c : VoiceService.IncCall)
    (g_a_or_b : List Nat) (peer_fp : Int)
    (hne : g_a_or_b ≠ []) (hh : c.g_a_hash ≠ sha256 g_a_or_b)
    (hak : c.auth_key = none) (hkf : c.key_fingerprint = none) :
    VoiceService.incoming_call_accepted c g_a_or_b peer_fp =
      .normal c.call_failed ∧
    c.call_failed.state = .FAILED ∧
    c.call_failed.auth_key = none ∧
    c.call_failed.key_fingerprint = none := by
  refine ⟨?_, rfl, hak, hkf⟩
  unfold VoiceService.incoming_call_accepted
  rw [if_neg hne, if_pos hh]

/-- The concrete incoming call used in the C4 witness: stored commitment hash
empty, so it cannot match any SHA-256 digest. -/
def c4_call : VoiceService.IncCall :=
  ⟨.EXCHANGING_KEYS, [], 3, 23, none, none, none⟩

/-- Witness for C4 at the concrete call `c4_call` with revealed bytes `[2]`. -/
theorem c4_witness :
    VoiceService.incoming_call_accepted c4_call [2] 0 =
      .normal c4_call.call_failed ∧
    c4_call.call_failed.state = .FAILED ∧
    c4_call.call_failed.auth_key = none ∧
    c4_call.call_failed.key_fingerprint = none :=
  c4_commitment_mismatch_fails c4_call [2] 0 (by decide) (by decide) rfl rfl

/-- The aiortc call used to exhibit the C7 divergence: an active call with a
live peer connection. -/
def c7_active_call : Aiortc.PCall := ⟨true, true, .ACTIVE⟩

/-- C7 counterexample: in `AiortcP2PCall.hangup`, `self.call` is never
cleared, so a second `hangup()` on an already hung-up call does not return
the no-active-call condition — it issues a second `DiscardCall` RPC and a
second `call.ended` event (two of each in total, not one). -/
theorem c7_counterexample_aiortc_double_hangup :
    (Aiortc.hangup c7_active_call).discard_rpcs = 1 ∧
    (Aiortc.hangup c7_active_call).ended_events = 1 ∧
    (Aiortc.hangup (Aiortc.hangup c7_active_call).after).no_active_call_error
      = false ∧
    (Aiortc.hangup (Aiortc.hangup c7_active_call).after).discard_rpcs = 1 ∧
    (Aiortc.hangup (Aiortc.hangup c7_active_call).after).ended_events = 1 := by
  decide

/-- C7 (amended): `CallService.hangup` is idempotent — a first hangup on an
active call issues exactly one discard RPC and one `call.ended` event and
clears the active call, and a second hangup returns the no-active-call error
with no RPC and no event; `AiortcP2PCall.hangup` is not idempotent — since
`self.call` is never cleared, a second hangup on any hung-up call re-issues
the discard RPC instead of reporting no active call. -/
theorem c7_hangup_idempotency :
    (VoiceService.CallService.hangup true).discard_rpcs = 1 ∧
    (VoiceService.CallService.hangup true).ended_events = 1 ∧
    (VoiceService.CallService.hangup true).active_after = false ∧
    (VoiceService.CallService.hangup
      (VoiceService.CallService.hangup true).active_after).no_active_call_error
      = true ∧
    (VoiceService.CallService.hangup
      (VoiceService.CallService.hangup true).active_after).discard_rpcs = 0 ∧
    (VoiceService.CallService.hangup
      (VoiceService.CallService.hangup true).active_after).ended_events = 0 ∧
    (∀ c : Aiortc.PCall, c.call_set = true →
      (Aiortc.hangup (Aiortc.hangup c).after).discard_rpcs = 1 ∧
      (Aiortc.hangup (Aiortc.hangup c).after).no_active_call_error = false) := by
  refine ⟨rfl, rfl, rfl, rfl, rfl, rfl, ?_⟩
  intro c hc
  simp [Aiortc.hangup, hc]

/-- Witness for C7 (amended) at a concrete hung-up aiortc call. -/
theorem c7_witness :
    (⟨true, false, .ENDED⟩ : Aiortc.PCall).call_set = true ∧
    ((Aiortc.hangup (Aiortc.hangup
        (⟨true, false, .ENDED⟩ : Aiortc.PCall)).after).discard_rpcs = 1 ∧
      (Aiortc.hangup (Aiortc.hangup
        (⟨true, false, .ENDED⟩ : Aiortc.PCall)).after).no_active_call_error
        = false) :=
  ⟨rfl, c7_hangup_idempotency.2.2.2.2.2.2 ⟨true, false, .ENDED⟩ rfl⟩

/-- C8 counterexample: caller 777 is not in the allow-list `[1]`; the bridge
emits only a `call.rejected` event and issues no RPC at all — in particular
no `DiscardCall` with reason Busy, contrary to the claim. -/
theorem c8_counterexample_no_busy_discard :
    Bridge.is_user_allowed [1] 777 = false ∧
    (Bridge.handle_call_requested [1] [] 42 777).rpcs = [] ∧
    (Bridge.handle_call_requested [1] [] 42 777).incoming_created = false := by
  decide

/-- C8 (amended): an inbound call-requested event whose caller fails the
allow-list creates no IncomingCall object (so the call never reaches
WaitingIncoming), registers nothing, emits a single `call.rejected` event
with reason not_allowed, and issues no discard RPC — neither with reason
Busy nor any other; the update is simply dropped. -/
theorem c8_disallowed_caller_dropped (allowed : List Int) (active : List Nat)
    (cid : Nat) (caller : Int)
    (h : Bridge.is_user_allowed allowed caller = false) :
    Bridge.handle_call_requested allowed active cid caller =
      { active_calls := active, incoming_created := false,
        events := [.callRejected cid caller], rpcs := [] } := by
  simp [Bridge.handle_call_requested, h]

/-- Witness for C8 (amended) at allow-list `[1]` and caller 777. -/
theorem c8_witness :
    Bridge.handle_call_requested [1] [] 42 777 =
      { active_calls := [], incoming_created := false,
        events := [.callRejected 42 777], rpcs := [] } :=
  c8_disallowed_caller_dropped [1] [] 42 777 (by decide)

/-- C9: `is_user_allowed` admits every user when the configured allow-list is
empty; when the list is non-empty it admits exactly the users contained in
it. -/
theorem c9_allowlist_semantics (allowed : List Int) (uid : Int) :
    (allowed = [] → Bridge.is_user_allowed allowed uid = true) ∧
    (allowed ≠ [] →
      (Bridge.is_user_allowed allowed uid = true ↔ uid ∈ allowed)) := by
  constructor
  · intro h
    subst h
    rfl
  · intro h
    unfold Bridge.is_user_allowed
    rw [if_neg (by simp [h])]
    exact List.elem_iff

/-- Witness for C9 at the empty allow-list with user 5, and at allow-list
`[3]` with user 4. -/
theorem c9_witness :
    Bridge.is_user_allowed [] 5 = true ∧
    (Bridge.is_user_allowed [3] 4 = true ↔ (4 : Int) ∈ [(3 : Int)]) :=
  ⟨(c9_allowlist_semantics [] 5).1 rfl,
   (c9_allowlist_semantics [3] 4).2 (by decide)⟩

end SpecModel
